import Mathlib

/-!
Shallow embedding of the life3biotech/aisg repository for specification
checking.

The embedded modules are:
  * `src/life3_biotech/config.py` — the `PipelineConfig` class, which copies
    entries of a nested `params` dictionary into the process-wide `pconst`
    constants registry;
  * `src/life3_biotech/data_prep/preprocess_efficientdet.py` — the
    `EfficientDetPipeline.generate_annotations` method, which converts a
    DataFrame of image-bounding-box rows into the CSV format expected by the
    EfficientDet training code;
  * `src/inference/inference_pipeline.py` — the `PeekingDuckPipeline` class:
    `set_model_node` and `predict_custom` (with `save_predict_output`).

Python dictionaries are modelled as association lists looked up by first
match (keys are unique in the modelled configurations), Python files as an
association list from path strings to file contents, and machine-level
values appearing in the configuration as the inductive `Val`.  Fallible
Python code returns `Except PyErr`.  Logging calls that do not affect any
observable state tracked by a claim are noted in comments.
-/

/-- Value stored in a Python dict or in the `pconst` constants registry.
`pynone` is the Python `None`; `tup v` is the result of applying the Python
builtin `tuple` to `v` (kept symbolic: no claim inspects its contents). -/
inductive Val where
  | pynone
  | str (s : String)
  | int (n : Int)
  | bool (b : Bool)
  | tup (v : Val)
deriving DecidableEq, Repr

/-- A Python dict with string keys, modelled as an association list. -/
abbrev PyDict := List (String × Val)

/-- The nested `params` dictionary passed to `PipelineConfig.__init__`:
section name to section dict. -/
abbrev Params := List (String × PyDict)

/-- First-match lookup in an association list; models Python dict
subscription and the `in` test (`d[k]`, `k in d`). -/
def alookup {α : Type} : List (String × α) → String → Option α
  | [], _ => none
  | (k, v) :: t, key => if k = key then some v else alookup t key

/-- Overwriting insert into an association list; models Python dict item
assignment and opening a file path in write mode. -/
def awrite {α : Type} : List (String × α) → String → α → List (String × α)
  | [], key, v => [(key, v)]
  | (k, w) :: t, key, v => if k = key then (key, v) :: t else (k, w) :: awrite t key v

/-- Python exceptions raised by the embedded code. -/
inductive PyErr where
  | keyError (k : String)
  | constError (k : String)
  | valueError (msg : String)
  | unboundLocalError
  | readError
deriving DecidableEq, Repr

deriving instance DecidableEq for Except

/-- Mandatory dict subscription `d[k]`: raises `KeyError` when absent. -/
def mget (d : PyDict) (k : String) : Except PyErr Val :=
  match alookup d k with
  | some v => Except.ok v
  | none => Except.error (PyErr.keyError k)

/-- The constants registry contents, in assignment order: the sequence of
`const.NAME = value` assignments performed by `PipelineConfig.__init__`. -/
abbrev Store := List (String × Val)

/-- One `pconst` attribute assignment: `pconst` raises `ConstError` when a
constant that is already defined is assigned again, otherwise records the
binding. -/
def pconstAssign (store : Store) (kv : String × Val) : Except PyErr Store :=
  if store.any (fun e => e.fst = kv.fst) then Except.error (PyErr.constError kv.fst)
  else Except.ok (store ++ [kv])

/-- Replays a list of assignments through `pconstAssign` starting from an
empty registry. -/
def pconstReplay (l : Store) : Except PyErr Store :=
  l.foldlM pconstAssign []

/-- Sequential mandatory assignments `const.C = sec[k]` for a list of
(constant name, section key) pairs, in source order; a missing key raises
`KeyError`. -/
def mgetAssigns (sec : PyDict) : List (String × String) → Except PyErr Store
  | [] => Except.ok []
  | (cname, key) :: rest =>
    match mget sec key with
    | Except.error e => Except.error e
    | Except.ok v =>
      match mgetAssigns sec rest with
      | Except.error e => Except.error e
      | Except.ok tail => Except.ok ((cname, v) :: tail)

/-- Conditional assignment `if k in sec: const.C = f(sec[k])`; `f` is the
conversion applied to the looked-up value (identity except for the
`tuple` call on `image_sizes`). -/
def optAssign (sec : PyDict) (cname key : String) (f : Val → Val) : Store :=
  match alookup sec key with
  | some v => [(cname, f v)]
  | none => []

/-- The (constant name, key) pairs assigned from the `data_prep` section,
in source order; all are mandatory subscriptions. -/
def dataPrepPairs : List (String × String) :=
  [ ("DATA_SUBDIRS_PATH_LIST", "data_subdirs_paths"),
    ("PROCESSED_DATA_PATH", "processed_data_path"),
    ("INTERIM_DATA_PATH", "interim_data_path"),
    ("RAW_DATA_PATH", "raw_data_path"),
    ("LOAD_DATA", "load_data"),
    ("MODELS", "models"),
    ("ANNOTATIONS_SUBDIR", "annotations_subdir"),
    ("IMAGES_SUBDIR", "images_subdir"),
    ("COCO_ANNOTATION_FILENAME", "coco_annotations_filename"),
    ("CLASS_MAP", "class_map"),
    ("REMAP_CLASSES", "remap_classes"),
    ("CLASS_REMAPPING", "class_remapping"),
    ("EXCLUDED_IMAGES", "excluded_images"),
    ("COMBINED_ANNOTATIONS_FILENAME", "combined_annotations_filename"),
    ("ACCEPTED_IMAGE_FORMATS", "accepted_image_formats"),
    ("TILE_DATA_DIR_PATHS", "tile_data_dir_paths"),
    ("TILE_SLICE_HEIGHT", "tile_slice_height"),
    ("TILE_SLICE_WIDTH", "tile_slice_width"),
    ("TILE_OVERLAP_HEIGHT_RATIO", "tile_overlap_height_ratio"),
    ("TILE_OVERLAP_WIDTH_RATIO", "tile_overlap_width_ratio"),
    ("TARGET_COL", "target_col"),
    ("SAVE_DATA_SPLITS", "save_data_splits"),
    ("VAL_SIZE", "val_size"),
    ("TEST_SIZE", "test_size"),
    ("TRAIN_SET_FILENAME", "train_base_filename"),
    ("VAL_SET_FILENAME", "validation_base_filename"),
    ("TEST_SET_FILENAME", "test_base_filename") ]

/-- The mandatory (constant name, key) pairs of the `train` section, in
source order. -/
def trainMandatoryPairs : List (String × String) :=
  [ ("TRAIN_MODEL_NAME", "model_name"),
    ("TRAIN_EARLY_STOPPING", "early_stopping"),
    ("TRAIN_EARLY_STOP_PATIENCE", "patience"),
    ("EVAL_ONLY", "eval_only"),
    ("LR_SCHEDULER", "lr_scheduler"),
    ("INITIAL_LR", "initial_lr") ]

/-- The (constant name, key) pairs assigned from the `inference` section,
in source order; all are mandatory subscriptions. -/
def inferencePairs : List (String × String) :=
  [ ("INFERENCE_MODEL_NAME", "model_name"),
    ("INFERENCE_INPUT_DIR", "input_data_dir"),
    ("INFERENCE_SAVE_OUTPUT", "save_output_image"),
    ("INFERENCE_OUTPUT_PATH", "inference_output_path"),
    ("INFERENCE_MODE", "inference_mode") ]

/-- Processing of the `data_prep` section of `PipelineConfig.__init__`
(the `logger.info` call is elided). -/
def initDataPrep (sec : PyDict) : Except PyErr Store :=
  mgetAssigns sec dataPrepPairs

/-- Processing of the `train` section: six mandatory assignments followed
by six `if key in train_params` guarded assignments, in source order. -/
def initTrain (sec : PyDict) : Except PyErr Store :=
  match mgetAssigns sec trainMandatoryPairs with
  | Except.error e => Except.error e
  | Except.ok m => Except.ok (m
    ++ optAssign sec "TRAIN_LR_REDUCE_FACTOR" "lr_reduce_factor" id
    ++ optAssign sec "TRAIN_LR_REDUCE_PATIENCE" "lr_reduce_patience" id
    ++ optAssign sec "TRAIN_LR_MIN_DELTA" "lr_min_delta" id
    ++ optAssign sec "RUN_TRAIN_NMS" "run_nms" id
    ++ optAssign sec "TRAIN_NMS_THRESHOLD" "nms_threshold" id
    ++ optAssign sec "TRAIN_SCORE_THRESHOLD" "score_threshold" id)

/-- Processing of the `inference` section (the source reuses the local
variable name `train_params` for this section dict). -/
def initInference (sec : PyDict) : Except PyErr Store :=
  mgetAssigns sec inferencePairs

/-- Processing of the `efficientdet` section: guarded assignments in source
order.  `ANCHOR_BOX_SCALES` is the only constant with an `else` branch: it
is set to Python `None` when the key is absent.  `image_sizes` is passed
through the Python `tuple` builtin. -/
def initEfficientdet (sec : PyDict) : Store :=
  optAssign sec "TRAIN_ANNOTATIONS_PATH" "train_annotations_path" id
  ++ optAssign sec "VAL_ANNOTATIONS_PATH" "val_annotations_path" id
  ++ optAssign sec "TEST_ANNOTATIONS_PATH" "test_annotations_path" id
  ++ optAssign sec "SAVED_MODEL_PATH" "snapshot-path" id
  ++ optAssign sec "BEST_MODEL" "saved_best_model" id
  ++ [("ANCHOR_BOX_SCALES", (alookup sec "anchor_box_scales").getD Val.pynone)]
  ++ optAssign sec "ANCHOR_BOX_RATIOS" "anchor_box_ratios" id
  ++ optAssign sec "ED_TRAIN_BACKBONE" "train_backbone" id
  ++ optAssign sec "ED_IMAGE_SIZES" "image_sizes" Val.tup
  ++ optAssign sec "ED_INFERENCE_BACKBONE" "inference_backbone" id

/-- The `if "data_prep" in params:` block of `__init__`. -/
def dataPrepAssigns (params : Params) : Except PyErr Store :=
  match alookup params "data_prep" with
  | some sec => initDataPrep sec
  | none => Except.ok []

/-- The `if "train" in params:` block of `__init__`. -/
def trainAssigns (params : Params) : Except PyErr Store :=
  match alookup params "train" with
  | some sec => initTrain sec
  | none => Except.ok []

/-- The `if "inference" in params:` block of `__init__`. -/
def inferenceAssigns (params : Params) : Except PyErr Store :=
  match alookup params "inference" with
  | some sec => initInference sec
  | none => Except.ok []

/-- The `if "efficientdet" in params:` block of `__init__`; it contains no
mandatory subscription, hence never raises. -/
def edAssigns (params : Params) : Store :=
  match alookup params "efficientdet" with
  | some sec => initEfficientdet sec
  | none => []

/-- The whole of `PipelineConfig.__init__`, as the ordered list of
`pconst` assignments it performs.  The `logger.debug` call at entry and the
`if "train_augmentation" in params:` block (which only binds a local
variable and assigns no constant) are elided.  When a mandatory key is
missing the source raises `KeyError`; this is modelled by the `Except`
error result. -/
def pipelineConfigInit (params : Params) : Except PyErr Store :=
  Except.bind (dataPrepAssigns params) (fun s1 =>
  Except.bind (trainAssigns params) (fun s2 =>
  Except.bind (inferenceAssigns params) (fun s3 =>
  Except.ok (s1 ++ s2 ++ s3 ++ edAssigns params))))

/-- One row of the combined annotations DataFrame, as accessed by
`generate_annotations` (`iterrows` row with the five columns the source
subscripts; the bounding-box columns are integral, so the Python `int()`
conversions in the source are the identity on them). -/
structure AnnotRow where
  file_name : String
  category_name : String
  bbox_x_min : Int
  bbox_y_min : Int
  bbox_x_max : Int
  bbox_y_max : Int
deriving DecidableEq, Repr

/-- One cell of a CSV row written by `csv.writer.writerow`: either the
string form of a `pathlib` path, a Python int, or a class-name string. -/
inductive CsvCell where
  | path (p : String)
  | int (n : Int)
  | str (s : String)
deriving DecidableEq, Repr

/-- A written CSV file, as its list of rows (the writer emits no header). -/
abbrev CsvRows := List (List CsvCell)

/-- Contents of a file in the modelled data-prep filesystem: either a
combined-annotations CSV as `pd.read_csv` parses it, or an
EfficientDet-format CSV produced by `generate_annotations`. -/
inductive PFile where
  | annotCsv (rows : List AnnotRow)
  | edCsv (rows : CsvRows)
deriving DecidableEq, Repr

/-- The subset of registry constants read by `generate_annotations`,
as a record (the registry itself is write-once, see `pconstAssign`). -/
structure Consts where
  INTERIM_DATA_PATH : String
  COMBINED_ANNOTATIONS_FILENAME : String
  RAW_DATA_PATH : String
  PROCESSED_DATA_PATH : String
  ED_TRAIN_BACKBONE : Int
deriving DecidableEq, Repr

/-- A log record produced through the `logging.Logger` object. -/
inductive LogEntry where
  | error (msg : String)
deriving DecidableEq, Repr

/-- Process state visible to `generate_annotations`: the constants
registry, the filesystem, and the log. -/
structure RepoState where
  consts : Consts
  fs : List (String × PFile)
  log : List LogEntry
deriving DecidableEq, Repr

/-- Path join `Path(a, b)` / `PurePath(a, b)` for a relative second
segment, as rendered when the path object is stringified. -/
def joinPath (a b : String) : String := a ++ "/" ++ b

/-- Conversion of one DataFrame row into the CSV row
`[Path(RAW_DATA_PATH, file_name), int(x1), int(y1), int(x2), int(y2),
class_name]` built in the loop body of `generate_annotations`. -/
def annotToCsvRow (rawDataPath : String) (a : AnnotRow) : List CsvCell :=
  [ CsvCell.path (joinPath rawDataPath a.file_name),
    CsvCell.int a.bbox_x_min,
    CsvCell.int a.bbox_y_min,
    CsvCell.int a.bbox_x_max,
    CsvCell.int a.bbox_y_max,
    CsvCell.str a.category_name ]

/-- The Python expression `s.split(".")[0]`: the prefix of `s` before its
first dot (`split` always returns a non-empty list, so index 0 exists). -/
def splitDotHead (s : String) : String :=
  String.mk (s.data.takeWhile (fun c => c ≠ '.'))

/-- Output file path built by `generate_annotations`:
`PurePath(PROCESSED_DATA_PATH, base_filename.split(".")[0]
+ "_efficientdet_b" + str(ED_TRAIN_BACKBONE) + ".csv")`. -/
def edCsvPath (c : Consts) (base_filename : String) : String :=
  joinPath c.PROCESSED_DATA_PATH
    (splitDotHead base_filename ++ "_efficientdet_b"
      ++ toString c.ED_TRAIN_BACKBONE ++ ".csv")

/-- The local `annot_filepath` of `generate_annotations`:
`Path(const.INTERIM_DATA_PATH, const.COMBINED_ANNOTATIONS_FILENAME)`. -/
def combinedAnnotPath (c : Consts) : String :=
  joinPath c.INTERIM_DATA_PATH c.COMBINED_ANNOTATIONS_FILENAME

/-- The whole second half of `generate_annotations` given the DataFrame to
convert: builds `data_value` (the converted rows, in order) and writes them
with `csv.writer.writerow`, one row per DataFrame row and no header, into
the output file opened in `"w"` mode. -/
def writeEdCsv (st : RepoState) (base_filename : String) (df : List AnnotRow) : RepoState :=
  { st with
    fs := awrite st.fs (edCsvPath st.consts base_filename)
      (PFile.edCsv (df.map (annotToCsvRow st.consts.RAW_DATA_PATH))) }

/-- The `EfficientDetPipeline.generate_annotations` method.  When
`annotations` is `none` (Python `None`) the combined annotations CSV is
read from `combinedAnnotPath`; when that file does not exist an error is
logged and the method returns with no other effect.  Otherwise every row
is converted and written via `writeEdCsv`.  Reading an interim file that
is not a combined-annotations CSV is modelled as `readError` (the source
would fail later on the missing columns); no claim exercises that path. -/
def generate_annotations (st : RepoState) (base_filename : String)
    (annotations : Option (List AnnotRow)) : Except PyErr RepoState :=
  match annotations with
  | some df => Except.ok (writeEdCsv st base_filename df)
  | none =>
    match alookup st.fs (combinedAnnotPath st.consts) with
    | some (PFile.annotCsv df) => Except.ok (writeEdCsv st base_filename df)
    | some (PFile.edCsv _) => Except.error PyErr.readError
    | none =>
      Except.ok { st with log := st.log ++
        [LogEntry.error ("Annotations file missing @ " ++ combinedAnnotPath st.consts
          ++ "! No annotations to generate.")] }

/-- A model node held in `self.model_node`, tagged by which `Node`
constructor built it (`peekingduck efficientdet.Node(**config)` or the
custom `life3_efficientdet.Node(**config)`). -/
inductive ModelNode where
  | effdetNode (config : PyDict)
  | life3Node (config : PyDict)
deriving DecidableEq, Repr

/-- Result of running `PeekingDuckPipeline.set_model_node`: the final value
of `self.model_node` and the message of the `ValueError` propagating out of
the call, if any. -/
structure SetModelResult where
  model_node : Option ModelNode
  raised : Option String
deriving DecidableEq, Repr

/-- The `PeekingDuckPipeline.set_model_node` method.  The source is a plain
`if` on `"effdet"` followed by an `if`/`else` on `"life3_effdet"` (not an
`elif` chain), so the `else` branch raising `ValueError` runs for every
type other than `"life3_effdet"`, even after the `"effdet"` branch has
already assigned `self.model_node`.  `cur` is the value of
`self.model_node` on entry; the `logger.info` and `logger.error` calls are
elided. -/
def set_model_node (model_node_type : String) (model_config : PyDict)
    (cur : Option ModelNode) : SetModelResult :=
  let m1 := if model_node_type = "effdet"
    then some (ModelNode.effdetNode model_config) else cur
  if model_node_type = "life3_effdet"
    then { model_node := some (ModelNode.life3Node model_config), raised := none }
    else { model_node := m1, raised := some "Unsupported model node type specified!" }

/-- The dict `{"img": image_orig}` passed to the model node. -/
structure RunInput (Img : Type) where
  img : Img
deriving DecidableEq, Repr

/-- The fields of the model node output dict that `predict_custom`
reads. -/
structure RunOutput (Box Lbl : Type) where
  bboxes : Box
  bbox_labels : Lbl
deriving DecidableEq, Repr

/-- One record of the accumulated prediction DataFrame, with the fields
in the order the dict literal in the source lists them. -/
structure PredOutput (Box Lbl : Type) where
  bboxes : Box
  bbox_labels : Lbl
  img_path : String
deriving DecidableEq, Repr

/-- Filesystem visible to `predict_custom`: CSV files written by
`save_predict_output` (`DataFrame.to_csv`), stored as the DataFrame they
serialise. -/
abbrev PredFS (Box Lbl : Type) := List (String × List (PredOutput Box Lbl))

/-- The `PeekingDuckPipeline.save_predict_output` helper:
`output_df.to_csv(output_path, ...)`. -/
def save_predict_output {Box Lbl : Type} (fs : PredFS Box Lbl)
    (output_df : List (PredOutput Box Lbl)) (output_path : String) : PredFS Box Lbl :=
  awrite fs output_path output_df

/-- Outcome of `predict_custom`: the returned DataFrame or the exception,
the final filesystem, and the ordered list of inputs passed to
`self.model_node.run` (one entry per invocation). -/
structure PredictResult (Img Box Lbl : Type) where
  result : Except PyErr (List (PredOutput Box Lbl))
  fs : PredFS Box Lbl
  runCalls : List (RunInput Img)

/-- The `for path in image_list` loop body of `predict_custom`, iterated
over the remaining paths.  State threaded: the accumulator `pred_outputs`,
the local `pred_outputs_df` (`none` while still unbound), the filesystem,
and the trace of `run` invocations.  `imread` models `cv2.imread` and
`cvtColor` models `cv2.cvtColor(..., cv2.COLOR_BGR2RGB)`; `run` is the
`run` method of `self.model_node`. -/
def predictLoop {Img Box Lbl : Type} (imread : String → Img) (cvtColor : Img → Img)
    (run : RunInput Img → RunOutput Box Lbl)
    (save_output_option : Bool) (output_path : String) :
    List String → List (PredOutput Box Lbl) → Option (List (PredOutput Box Lbl)) →
    PredFS Box Lbl → List (RunInput Img) →
    Option (List (PredOutput Box Lbl)) × PredFS Box Lbl × List (RunInput Img)
  | [], _, dfOpt, fs, calls => (dfOpt, fs, calls)
  | path :: rest, pred_outputs, _, fs, calls =>
    let image_orig := cvtColor (imread path)
    let eff_det_input : RunInput Img := { img := image_orig }
    let eff_det_output := run eff_det_input
    let pred_output : PredOutput Box Lbl :=
      { bboxes := eff_det_output.bboxes,
        bbox_labels := eff_det_output.bbox_labels,
        img_path := path }
    let pred_outputs' := pred_outputs ++ [pred_output]
    let pred_outputs_df := pred_outputs'
    let fs' := if save_output_option
      then save_predict_output fs pred_outputs_df output_path else fs
    predictLoop imread cvtColor run save_output_option output_path
      rest pred_outputs' (some pred_outputs_df) fs' (calls ++ [eff_det_input])

/-- The `PeekingDuckPipeline.predict_custom` method.  The final
`return pred_outputs_df` raises `UnboundLocalError` when the loop body
never ran (empty `image_list`), since the local is only assigned inside
the loop. -/
def predict_custom {Img Box Lbl : Type} (imread : String → Img) (cvtColor : Img → Img)
    (run : RunInput Img → RunOutput Box Lbl) (image_list : List String)
    (save_output_option : Bool) (output_path : String) (fs : PredFS Box Lbl) :
    PredictResult Img Box Lbl :=
  match predictLoop imread cvtColor run save_output_option output_path
      image_list [] none fs [] with
  | (some df, fs', calls) => { result := Except.ok df, fs := fs', runCalls := calls }
  | (none, fs', calls) =>
    { result := Except.error PyErr.unboundLocalError, fs := fs', runCalls := calls }

/-- Constant names assigned from the `data_prep` section. -/
def dataPrepConstNames : List String := dataPrepPairs.map Prod.fst

/-- Constant names always assigned from the `train` section. -/
def trainMandatoryConstNames : List String := trainMandatoryPairs.map Prod.fst

/-- Constant names assigned from the `inference` section. -/
def inferenceConstNames : List String := inferencePairs.map Prod.fst

/-- All constant names the `train` section can assign, in source order. -/
def trainAllConstNames : List String :=
  trainMandatoryConstNames ++ ["TRAIN_LR_REDUCE_FACTOR"] ++ ["TRAIN_LR_REDUCE_PATIENCE"]
    ++ ["TRAIN_LR_MIN_DELTA"] ++ ["RUN_TRAIN_NMS"] ++ ["TRAIN_NMS_THRESHOLD"]
    ++ ["TRAIN_SCORE_THRESHOLD"]

/-- All constant names the `efficientdet` section can assign, in source
order. -/
def edAllConstNames : List String :=
  ["TRAIN_ANNOTATIONS_PATH"] ++ ["VAL_ANNOTATIONS_PATH"] ++ ["TEST_ANNOTATIONS_PATH"]
    ++ ["SAVED_MODEL_PATH"] ++ ["BEST_MODEL"] ++ ["ANCHOR_BOX_SCALES"]
    ++ ["ANCHOR_BOX_RATIOS"] ++ ["ED_TRAIN_BACKBONE"] ++ ["ED_IMAGE_SIZES"]
    ++ ["ED_INFERENCE_BACKBONE"]

/-- Every constant name `PipelineConfig.__init__` can assign. -/
def allConstNames : List String :=
  dataPrepConstNames ++ trainAllConstNames ++ inferenceConstNames ++ edAllConstNames

/-- Specification-side description of the constant names the `train`
section assigns: the mandatory ones, plus each optional one exactly when
its key is present in the section dict. -/
def expectedTrainKeys (sec : PyDict) : List String :=
  trainMandatoryConstNames
  ++ (if (alookup sec "lr_reduce_factor").isSome then ["TRAIN_LR_REDUCE_FACTOR"] else [])
  ++ (if (alookup sec "lr_reduce_patience").isSome then ["TRAIN_LR_REDUCE_PATIENCE"] else [])
  ++ (if (alookup sec "lr_min_delta").isSome then ["TRAIN_LR_MIN_DELTA"] else [])
  ++ (if (alookup sec "run_nms").isSome then ["RUN_TRAIN_NMS"] else [])
  ++ (if (alookup sec "nms_threshold").isSome then ["TRAIN_NMS_THRESHOLD"] else [])
  ++ (if (alookup sec "score_threshold").isSome then ["TRAIN_SCORE_THRESHOLD"] else [])

/-- Specification-side description of the constant names the
`efficientdet` section assigns: each optional one exactly when its key is
present, and `ANCHOR_BOX_SCALES` always. -/
def expectedEdKeys (sec : PyDict) : List String :=
  (if (alookup sec "train_annotations_path").isSome then ["TRAIN_ANNOTATIONS_PATH"] else [])
  ++ (if (alookup sec "val_annotations_path").isSome then ["VAL_ANNOTATIONS_PATH"] else [])
  ++ (if (alookup sec "test_annotations_path").isSome then ["TEST_ANNOTATIONS_PATH"] else [])
  ++ (if (alookup sec "snapshot-path").isSome then ["SAVED_MODEL_PATH"] else [])
  ++ (if (alookup sec "saved_best_model").isSome then ["BEST_MODEL"] else [])
  ++ ["ANCHOR_BOX_SCALES"]
  ++ (if (alookup sec "anchor_box_ratios").isSome then ["ANCHOR_BOX_RATIOS"] else [])
  ++ (if (alookup sec "train_backbone").isSome then ["ED_TRAIN_BACKBONE"] else [])
  ++ (if (alookup sec "image_sizes").isSome then ["ED_IMAGE_SIZES"] else [])
  ++ (if (alookup sec "inference_backbone").isSome then ["ED_INFERENCE_BACKBONE"] else [])

/-- Specification-side description of the constant names assigned by
`PipelineConfig.__init__`, per section, in source order; written from the
spec sentence that the registry is populated from the four nested sections
`data_prep`, `train`, `inference` and `efficientdet`. -/
def expectedConstKeys (p : Params) : List String :=
  (match alookup p "data_prep" with | some _ => dataPrepConstNames | none => [])
  ++ (match alookup p "train" with | some sec => expectedTrainKeys sec | none => [])
  ++ (match alookup p "inference" with | some _ => inferenceConstNames | none => [])
  ++ (match alookup p "efficientdet" with | some sec => expectedEdKeys sec | none => [])

theorem mgetAssigns_keys (sec : PyDict) (ps : List (String × String)) (l : Store)
    (h : mgetAssigns sec ps = Except.ok l) : l.map Prod.fst = ps.map Prod.fst := by
  induction ps generalizing l with
  | nil =>
    simp only [mgetAssigns] at h
    injection h with h
    subst h
    simp
  | cons p rest ih =>
    obtain ⟨cname, key⟩ := p
    simp only [mgetAssigns] at h
    cases hv : mget sec key with
    | error e => rw [hv] at h; exact absurd h (by simp)
    | ok v =>
      rw [hv] at h
      cases ht : mgetAssigns sec rest with
      | error e => rw [ht] at h; exact absurd h (by simp)
      | ok tail =>
        rw [ht] at h
        injection h with h
        subst h
        simp [ih tail ht]

theorem optAssign_keys (sec : PyDict) (cname key : String) (f : Val → Val) :
    (optAssign sec cname key f).map Prod.fst =
      if (alookup sec key).isSome then [cname] else [] := by
  unfold optAssign
  cases alookup sec key <;> simp

theorem initTrain_keys (sec : PyDict) (l : Store) (h : initTrain sec = Except.ok l) :
    l.map Prod.fst = expectedTrainKeys sec := by
  unfold initTrain at h
  cases hm : mgetAssigns sec trainMandatoryPairs with
  | error e => rw [hm] at h; exact absurd h (by simp)
  | ok m =>
    rw [hm] at h
    injection h with h
    subst h
    simp [expectedTrainKeys, optAssign_keys,
      mgetAssigns_keys sec trainMandatoryPairs m hm, trainMandatoryConstNames]

theorem initEfficientdet_keys (sec : PyDict) :
    (initEfficientdet sec).map Prod.fst = expectedEdKeys sec := by
  simp [initEfficientdet, expectedEdKeys, optAssign_keys]

theorem init_ok_decomp (p : Params) (l : Store)
    (h : pipelineConfigInit p = Except.ok l) :
    ∃ s1 s2 s3, dataPrepAssigns p = Except.ok s1 ∧ trainAssigns p = Except.ok s2 ∧
      inferenceAssigns p = Except.ok s3 ∧ l = s1 ++ s2 ++ s3 ++ edAssigns p := by
  unfold pipelineConfigInit at h
  cases h1 : dataPrepAssigns p with
  | error e => rw [h1] at h; exact absurd h (by simp [Except.bind])
  | ok s1 =>
    rw [h1] at h
    cases h2 : trainAssigns p with
    | error e => rw [h2] at h; exact absurd h (by simp [Except.bind])
    | ok s2 =>
      rw [h2] at h
      cases h3 : inferenceAssigns p with
      | error e => rw [h3] at h; exact absurd h (by simp [Except.bind])
      | ok s3 =>
        rw [h3] at h
        simp only [Except.bind] at h
        injection h with h
        exact ⟨s1, s2, s3, rfl, rfl, rfl, h.symm⟩

theorem dataPrepAssigns_keys (p : Params) (s : Store)
    (h : dataPrepAssigns p = Except.ok s) :
    s.map Prod.fst =
      (match alookup p "data_prep" with | some _ => dataPrepConstNames | none => []) := by
  unfold dataPrepAssigns at h
  cases hl : alookup p "data_prep" with
  | none =>
    rw [hl] at h
    injection h with h
    subst h
    simp
  | some sec =>
    rw [hl] at h
    simpa [dataPrepConstNames] using mgetAssigns_keys sec dataPrepPairs s h

theorem trainAssigns_keys (p : Params) (s : Store)
    (h : trainAssigns p = Except.ok s) :
    s.map Prod.fst =
      (match alookup p "train" with | some sec => expectedTrainKeys sec | none => []) := by
  unfold trainAssigns at h
  cases hl : alookup p "train" with
  | none =>
    rw [hl] at h
    injection h with h
    subst h
    simp
  | some sec =>
    rw [hl] at h
    exact initTrain_keys sec s h

theorem inferenceAssigns_keys (p : Params) (s : Store)
    (h : inferenceAssigns p = Except.ok s) :
    s.map Prod.fst =
      (match alookup p "inference" with | some _ => inferenceConstNames | none => []) := by
  unfold inferenceAssigns at h
  cases hl : alookup p "inference" with
  | none =>
    rw [hl] at h
    injection h with h
    subst h
    simp
  | some sec =>
    rw [hl] at h
    simpa [inferenceConstNames] using mgetAssigns_keys sec inferencePairs s h

theorem edAssigns_keys (p : Params) :
    (edAssigns p).map Prod.fst =
      (match alookup p "efficientdet" with | some sec => expectedEdKeys sec | none => []) := by
  unfold edAssigns
  cases alookup p "efficientdet" with
  | none => simp
  | some sec => simpa using initEfficientdet_keys sec

theorem init_keys (p : Params) (l : Store)
    (h : pipelineConfigInit p = Except.ok l) :
    l.map Prod.fst = expectedConstKeys p := by
  obtain ⟨s1, s2, s3, h1, h2, h3, rfl⟩ := init_ok_decomp p l h
  unfold expectedConstKeys
  simp [List.map_append, dataPrepAssigns_keys p s1 h1, trainAssigns_keys p s2 h2,
    inferenceAssigns_keys p s3 h3, edAssigns_keys p]

theorem ite_singleton_sublist {α : Type} (c : Prop) [Decidable c] (a : α) :
    List.Sublist (if c then [a] else []) [a] := by
  split
  · exact List.Sublist.refl [a]
  · exact List.nil_sublist [a]

theorem expectedTrainKeys_sublist (sec : PyDict) :
    List.Sublist (expectedTrainKeys sec) trainAllConstNames := by
  unfold expectedTrainKeys trainAllConstNames
  exact List.Sublist.append (List.Sublist.append (List.Sublist.append
    (List.Sublist.append (List.Sublist.append (List.Sublist.append
    (List.Sublist.refl _) (ite_singleton_sublist _ _))
    (ite_singleton_sublist _ _)) (ite_singleton_sublist _ _))
    (ite_singleton_sublist _ _)) (ite_singleton_sublist _ _))
    (ite_singleton_sublist _ _)

theorem expectedEdKeys_sublist (sec : PyDict) :
    List.Sublist (expectedEdKeys sec) edAllConstNames := by
  unfold expectedEdKeys edAllConstNames
  exact List.Sublist.append (List.Sublist.append (List.Sublist.append
    (List.Sublist.append (List.Sublist.append (List.Sublist.append
    (List.Sublist.append (List.Sublist.append (List.Sublist.append
    (ite_singleton_sublist _ _) (ite_singleton_sublist _ _))
    (ite_singleton_sublist _ _)) (ite_singleton_sublist _ _))
    (ite_singleton_sublist _ _)) (List.Sublist.refl _))
    (ite_singleton_sublist _ _)) (ite_singleton_sublist _ _))
    (ite_singleton_sublist _ _)) (ite_singleton_sublist _ _)

theorem expectedConstKeys_sublist (p : Params) :
    List.Sublist (expectedConstKeys p) allConstNames := by
  unfold expectedConstKeys allConstNames
  refine List.Sublist.append (List.Sublist.append (List.Sublist.append ?_ ?_) ?_) ?_
  · cases alookup p "data_prep" with
    | none => exact List.nil_sublist _
    | some sec => exact List.Sublist.refl _
  · cases alookup p "train" with
    | none => exact List.nil_sublist _
    | some sec => exact expectedTrainKeys_sublist sec
  · cases alookup p "inference" with
    | none => exact List.nil_sublist _
    | some sec => exact List.Sublist.refl _
  · cases alookup p "efficientdet" with
    | none => exact List.nil_sublist _
    | some sec => exact expectedEdKeys_sublist sec

theorem allConstNames_nodup : allConstNames.Nodup := by
  decide

theorem init_keys_nodup (p : Params) (l : Store)
    (h : pipelineConfigInit p = Except.ok l) : (l.map Prod.fst).Nodup := by
  rw [init_keys p l h]
  exact List.Nodup.sublist (expectedConstKeys_sublist p) allConstNames_nodup

theorem pconstFold_ok (l : Store) : ∀ acc : Store,
    (((acc ++ l).map Prod.fst).Nodup) →
      l.foldlM pconstAssign acc = Except.ok (acc ++ l) := by
  induction l with
  | nil =>
    intro acc _
    simp [List.foldlM, pure, Except.pure]
  | cons kv t ih =>
    intro acc h
    have hnodup := h
    rw [List.map_append] at hnodup
    have hd := (List.nodup_append.mp hnodup).2.2
    have hc : ¬ (acc.any (fun e => e.fst = kv.fst) = true) := by
      intro hcc
      obtain ⟨e, he, heq⟩ := List.any_eq_true.mp hcc
      have heq' : e.fst = kv.fst := of_decide_eq_true heq
      exact hd (List.mem_map_of_mem Prod.fst he)
        (by rw [heq']; simp)
    have hstep : pconstAssign acc kv = Except.ok (acc ++ [kv]) := by
      unfold pconstAssign
      rw [if_neg hc]
    have hrest : t.foldlM pconstAssign (acc ++ [kv]) = Except.ok ((acc ++ [kv]) ++ t) := by
      refine ih (acc ++ [kv]) ?_
      simpa [List.append_assoc] using h
    calc (kv :: t).foldlM pconstAssign acc
        = (pconstAssign acc kv) >>= (fun s => t.foldlM pconstAssign s) := by
          simp [List.foldlM]
      _ = t.foldlM pconstAssign (acc ++ [kv]) := by rw [hstep]; rfl
      _ = Except.ok (acc ++ kv :: t) := by rw [hrest]; simp

theorem pconstReplay_of_nodup (l : Store) (h : (l.map Prod.fst).Nodup) :
    pconstReplay l = Except.ok l := by
  have := pconstFold_ok l [] (by simpa using h)
  simpa [pconstReplay] using this

/-- The prediction record `predict_custom` builds for one image path. -/
def predRecOf {Img Box Lbl : Type} (imread : String → Img) (cvtColor : Img → Img)
    (run : RunInput Img → RunOutput Box Lbl) (path : String) : PredOutput Box Lbl :=
  { bboxes := (run { img := cvtColor (imread path) }).bboxes,
    bbox_labels := (run { img := cvtColor (imread path) }).bbox_labels,
    img_path := path }

/-- The input dict `predict_custom` passes to the model node for one
image path. -/
def runInputOf {Img : Type} (imread : String → Img) (cvtColor : Img → Img)
    (path : String) : RunInput Img :=
  { img := cvtColor (imread path) }

theorem awrite_awrite {α : Type} (fs : List (String × α)) (p : String) (a b : α) :
    awrite (awrite fs p a) p b = awrite fs p b := by
  induction fs with
  | nil => simp [awrite]
  | cons kv t ih =>
    obtain ⟨k, v⟩ := kv
    by_cases hk : k = p
    · simp [awrite, hk]
    · simp [awrite, hk, ih]

theorem predictLoop_spec {Img Box Lbl : Type} (imread : String → Img)
    (cvtColor : Img → Img) (run : RunInput Img → RunOutput Box Lbl)
    (save : Bool) (out : String) :
    ∀ (l : List String) (outs : List (PredOutput Box Lbl))
      (dfOpt : Option (List (PredOutput Box Lbl))) (fs : PredFS Box Lbl)
      (calls : List (RunInput Img)),
      predictLoop imread cvtColor run save out l outs dfOpt fs calls =
        ( (if l = [] then dfOpt
            else some (outs ++ l.map (predRecOf imread cvtColor run))),
          (if save = true ∧ l ≠ []
            then awrite fs out (outs ++ l.map (predRecOf imread cvtColor run))
            else fs),
          calls ++ l.map (runInputOf imread cvtColor) ) := by
  intro l
  induction l with
  | nil =>
    intro outs dfOpt fs calls
    simp [predictLoop]
  | cons p rest ih =>
    intro outs dfOpt fs calls
    simp only [predictLoop]
    rw [ih]
    by_cases hrest : rest = []
    · subst hrest
      by_cases hsave : save
      · simp [hsave, predRecOf, runInputOf, save_predict_output]
      · simp [hsave, predRecOf, runInputOf]
    · by_cases hsave : save
      · simp [hsave, hrest, predRecOf, runInputOf, awrite_awrite,
          List.append_assoc, save_predict_output]
      · simp [hsave, hrest, predRecOf, runInputOf, List.append_assoc]

theorem alookup_awrite {α : Type} (fs : List (String × α)) (p : String) (v : α) :
    alookup (awrite fs p v) p = some v := by
  induction fs with
  | nil => simp [awrite, alookup]
  | cons kv t ih =>
    obtain ⟨k, w⟩ := kv
    by_cases hk : k = p
    · simp [awrite, hk, alookup]
    · simp [awrite, hk, alookup, ih]

theorem init_locality (p q : Params)
    (h1 : alookup p "data_prep" = alookup q "data_prep")
    (h2 : alookup p "train" = alookup q "train")
    (h3 : alookup p "inference" = alookup q "inference")
    (h4 : alookup p "efficientdet" = alookup q "efficientdet") :
    pipelineConfigInit p = pipelineConfigInit q := by
  unfold pipelineConfigInit dataPrepAssigns trainAssigns inferenceAssigns edAssigns
  rw [h1, h2, h3, h4]

theorem mem_ite_singleton_iff {α : Type} (a b : α) (c : Prop) [Decidable c] :
    (a ∈ (if c then [b] else [])) ↔ (a = b ∧ c) := by
  split <;> simp_all

theorem mem_expectedConstKeys (p : Params) (name : String)
    (h : name ∈ expectedConstKeys p) :
    name ∈ dataPrepConstNames ∨ name ∈ trainAllConstNames ∨
    name ∈ inferenceConstNames ∨
    (∃ sec, alookup p "efficientdet" = some sec ∧ name ∈ expectedEdKeys sec) := by
  unfold expectedConstKeys at h
  rcases List.mem_append.mp h with h | h4
  · rcases List.mem_append.mp h with h | h3
    · rcases List.mem_append.mp h with h1 | h2
      · left
        revert h1
        cases alookup p "data_prep" <;> simp
      · right; left
        revert h2
        cases hl : alookup p "train" with
        | none => simp
        | some sec => exact fun hm => (expectedTrainKeys_sublist sec).subset hm
    · right; right; left
      revert h3
      cases alookup p "inference" <;> simp
  · right; right; right
    revert h4
    cases hl : alookup p "efficientdet" with
    | none => simp
    | some sec => exact fun hm => ⟨sec, rfl, hm⟩

theorem edOptConst_not_assigned (p : Params) (sec : PyDict) (l : Store) (name : String)
    (hp : alookup p "efficientdet" = some sec) (h : pipelineConfigInit p = Except.ok l)
    (hnd : name ∉ dataPrepConstNames) (hnt : name ∉ trainAllConstNames)
    (hni : name ∉ inferenceConstNames) (hned : name ∉ expectedEdKeys sec) :
    name ∉ l.map Prod.fst := by
  intro hmem
  rw [init_keys p l h] at hmem
  rcases mem_expectedConstKeys p name hmem with h1 | h2 | h3 | ⟨sec', hsec', hed⟩
  · exact hnd h1
  · exact hnt h2
  · exact hni h3
  · rw [hp] at hsec'
    injection hsec' with hh
    subst hh
    exact hned hed

theorem generate_annotations_preserves_consts (st : RepoState) (base_filename : String)
    (ann : Option (List AnnotRow)) (st' : RepoState)
    (h : generate_annotations st base_filename ann = Except.ok st') :
    st'.consts = st.consts := by
  unfold generate_annotations at h
  cases ann with
  | some df =>
    injection h with h
    subst h
    rfl
  | none =>
    cases hl : alookup st.fs (combinedAnnotPath st.consts) with
    | none =>
      rw [hl] at h
      injection h with h
      subst h
      rfl
    | some f =>
      rw [hl] at h
      cases f with
      | annotCsv df =>
        injection h with h
        subst h
        rfl
      | edCsv rows => exact absurd h (by simp)

/-- C8: for model_node_type "effdet", set_model_node assigns the
peekingduck efficientdet node to self.model_node but nevertheless raises
ValueError with message "Unsupported model node type specified!"; the only
model_node_type for which set_model_node completes without raising is
"life3_effdet". -/
theorem C8_set_model_node_effdet_raises :
    (∀ (cfg : PyDict) (cur : Option ModelNode),
      (set_model_node "effdet" cfg cur).model_node = some (ModelNode.effdetNode cfg) ∧
      (set_model_node "effdet" cfg cur).raised =
        some "Unsupported model node type specified!") ∧
    (∀ (t : String) (cfg : PyDict) (cur : Option ModelNode),
      (set_model_node t cfg cur).raised = none ↔ t = "life3_effdet") := by
  constructor
  · intro cfg cur
    constructor
    · simp [set_model_node]
    · simp [set_model_node]
  · intro t cfg cur
    by_cases ht : t = "life3_effdet"
    · simp [set_model_node, ht]
    · simp [set_model_node, ht]

/-- C9: for an empty image_list, predict_custom does not return an empty
table: the loop body never runs (no model-node run call is made, so the
local pred_outputs_df is never bound) and the final return raises
UnboundLocalError, regardless of save_output_option; the filesystem is
untouched. -/
theorem C9_predict_custom_empty_raises (Img Box Lbl : Type) (imread : String → Img)
    (cvtColor : Img → Img) (run : RunInput Img → RunOutput Box Lbl)
    (save_output_option : Bool) (output_path : String) (fs : PredFS Box Lbl) :
    predict_custom imread cvtColor run [] save_output_option output_path fs =
      { result := Except.error PyErr.unboundLocalError, fs := fs, runCalls := [] } := rfl

/-- C1: generate_annotations writes one CSV row per DataFrame row, in the
input row order and with no header row, each row being exactly
[Path(RAW_DATA_PATH, file_name), int(bbox_x_min), int(bbox_y_min),
int(bbox_x_max), int(bbox_y_max), category_name]. -/
theorem C1_generate_annotations_rows (st : RepoState) (base_filename : String)
    (df : List AnnotRow) (st' : RepoState)
    (h : generate_annotations st base_filename (some df) = Except.ok st') :
    ∃ rows : CsvRows,
      alookup st'.fs (edCsvPath st.consts base_filename) = some (PFile.edCsv rows) ∧
      rows.length = df.length ∧
      (∀ (i : Nat) (a : AnnotRow), df[i]? = some a → rows[i]? = some
        [ CsvCell.path (joinPath st.consts.RAW_DATA_PATH a.file_name),
          CsvCell.int a.bbox_x_min, CsvCell.int a.bbox_y_min,
          CsvCell.int a.bbox_x_max, CsvCell.int a.bbox_y_max,
          CsvCell.str a.category_name ]) := by
  simp only [generate_annotations] at h
  injection h with h
  subst h
  refine ⟨df.map (annotToCsvRow st.consts.RAW_DATA_PATH), ?_, by simp, ?_⟩
  · simp [writeEdCsv, alookup_awrite]
  · intro i a ha
    simp [List.getElem?_map, ha, annotToCsvRow]

/-- C5: when generate_annotations is called with annotations None and the
combined annotations file does not exist, it logs an error and returns
without raising and without creating or writing any output CSV file: the
state is unchanged except for the appended error log entry. -/
theorem C5_generate_annotations_missing_file (st : RepoState) (base_filename : String)
    (h : alookup st.fs (combinedAnnotPath st.consts) = none) :
    generate_annotations st base_filename none = Except.ok
      { st with log := st.log ++
          [LogEntry.error ("Annotations file missing @ " ++ combinedAnnotPath st.consts
            ++ "! No annotations to generate.")] } := by
  simp [generate_annotations, h]

/-- C6: generate_annotations enforces no invariant on the bounding-box
coordinates: a row with bbox_x_min greater than or equal to bbox_x_max, or
bbox_y_min greater than or equal to bbox_y_max, is still converted and
written unchanged at its position, and the full output equals the
conversion of every input row with none rejected or reordered. -/
theorem C6_no_bbox_ordering_check (st : RepoState) (base_filename : String)
    (df : List AnnotRow) (st' : RepoState) (i : Nat) (a : AnnotRow)
    (hi : df[i]? = some a)
    (hbad : a.bbox_x_min ≥ a.bbox_x_max ∨ a.bbox_y_min ≥ a.bbox_y_max)
    (h : generate_annotations st base_filename (some df) = Except.ok st') :
    ∃ rows : CsvRows,
      alookup st'.fs (edCsvPath st.consts base_filename) = some (PFile.edCsv rows) ∧
      rows = df.map (annotToCsvRow st.consts.RAW_DATA_PATH) ∧
      rows[i]? = some (annotToCsvRow st.consts.RAW_DATA_PATH a) := by
  simp only [generate_annotations] at h
  injection h with h
  subst h
  refine ⟨df.map (annotToCsvRow st.consts.RAW_DATA_PATH), ?_, rfl, ?_⟩
  · simp [writeEdCsv, alookup_awrite]
  · simp [List.getElem?_map, hi]

/-- C2: the constants registry is write-once-at-init: replaying the
assignment sequence performed by PipelineConfig.__init__ through the
pconst rebinding guard never raises ConstError (every constant is assigned
at most once), and after __init__ the repository operations do not modify
the registry: generate_annotations returns a state with the same
constants. -/
theorem C2_registry_write_once :
    (∀ (params : Params) (l : Store), pipelineConfigInit params = Except.ok l →
      pconstReplay l = Except.ok l) ∧
    (∀ (st : RepoState) (base_filename : String) (ann : Option (List AnnotRow))
      (st' : RepoState), generate_annotations st base_filename ann = Except.ok st' →
      st'.consts = st.consts) := by
  constructor
  · intro params l h
    exact pconstReplay_of_nodup l (init_keys_nodup params l h)
  · exact generate_annotations_preserves_consts

/-- Counterexample input for C3: a params dict whose train section carries
exactly the six mandatory keys. -/
def cexTrainSec : PyDict :=
  [ ("model_name", Val.str "m"), ("early_stopping", Val.bool true),
    ("patience", Val.int 10), ("eval_only", Val.bool false),
    ("lr_scheduler", Val.str "plateau"), ("initial_lr", Val.int 1) ]

/-- Counterexample params for C3 without the optional lr_reduce_factor. -/
def cexParams : Params := [("train", cexTrainSec)]

/-- The registry assignments produced by the counterexample params. -/
def cexStore : Store :=
  [ ("TRAIN_MODEL_NAME", Val.str "m"), ("TRAIN_EARLY_STOPPING", Val.bool true),
    ("TRAIN_EARLY_STOP_PATIENCE", Val.int 10), ("EVAL_ONLY", Val.bool false),
    ("LR_SCHEDULER", Val.str "plateau"), ("INITIAL_LR", Val.int 1) ]

/-- The counterexample params with the optional lr_reduce_factor added. -/
def cexParams2 : Params :=
  [("train", cexTrainSec ++ [("lr_reduce_factor", Val.int 2)])]

/-- C3 counterexample: TRAIN_LR_REDUCE_FACTOR is a constant of the train
section (it is assigned from that section when its key is present, as
cexParams2 shows), yet with the train section present in cexParams it is
not assigned — refuting that constants of a section are assigned exactly
when that section key is present in params. -/
theorem C3_counterexample :
    (alookup cexParams "train").isSome = true ∧
    pipelineConfigInit cexParams = Except.ok cexStore ∧
    "TRAIN_LR_REDUCE_FACTOR" ∉ cexStore.map Prod.fst ∧
    pipelineConfigInit cexParams2 =
      Except.ok (cexStore ++ [("TRAIN_LR_REDUCE_FACTOR", Val.int 2)]) := by
  refine ⟨rfl, by decide, by decide, by decide⟩

/-- C3 (amended): PipelineConfig.__init__ populates constants only from
the four sections data_prep, train, inference and efficientdet — the
outcome depends on no other key of params — and on success the assigned
constant names are exactly: all of a present section's mandatory names,
plus its optional names exactly when their own key is present inside the
section (with ANCHOR_BOX_SCALES always assigned when efficientdet is
present); constants of an absent section are not assigned. -/
theorem C3_amended_sections_only :
    (∀ p q : Params,
      alookup p "data_prep" = alookup q "data_prep" →
      alookup p "train" = alookup q "train" →
      alookup p "inference" = alookup q "inference" →
      alookup p "efficientdet" = alookup q "efficientdet" →
      pipelineConfigInit p = pipelineConfigInit q) ∧
    (∀ (p : Params) (l : Store), pipelineConfigInit p = Except.ok l →
      l.map Prod.fst = expectedConstKeys p) := by
  exact ⟨init_locality, init_keys⟩

/-- C10: among the optional efficientdet keys only anchor_box_scales has a
default: when the section is present without it, ANCHOR_BOX_SCALES is
assigned Python None, while each other optional efficientdet key that is
absent leaves its constant entirely unassigned. -/
theorem C10_anchor_box_scales_default (p : Params) (sec : PyDict) (l : Store)
    (hp : alookup p "efficientdet" = some sec)
    (h : pipelineConfigInit p = Except.ok l) :
    (alookup sec "anchor_box_scales" = none →
      ("ANCHOR_BOX_SCALES", Val.pynone) ∈ l) ∧
    (alookup sec "anchor_box_ratios" = none →
      "ANCHOR_BOX_RATIOS" ∉ l.map Prod.fst) ∧
    (alookup sec "train_backbone" = none →
      "ED_TRAIN_BACKBONE" ∉ l.map Prod.fst) ∧
    (alookup sec "image_sizes" = none →
      "ED_IMAGE_SIZES" ∉ l.map Prod.fst) ∧
    (alookup sec "inference_backbone" = none →
      "ED_INFERENCE_BACKBONE" ∉ l.map Prod.fst) ∧
    (alookup sec "train_annotations_path" = none →
      "TRAIN_ANNOTATIONS_PATH" ∉ l.map Prod.fst) ∧
    (alookup sec "val_annotations_path" = none →
      "VAL_ANNOTATIONS_PATH" ∉ l.map Prod.fst) ∧
    (alookup sec "test_annotations_path" = none →
      "TEST_ANNOTATIONS_PATH" ∉ l.map Prod.fst) ∧
    (alookup sec "snapshot-path" = none →
      "SAVED_MODEL_PATH" ∉ l.map Prod.fst) ∧
    (alookup sec "saved_best_model" = none →
      "BEST_MODEL" ∉ l.map Prod.fst) := by
  refine ⟨?_, ?_, ?_, ?_, ?_, ?_, ?_, ?_, ?_, ?_⟩
  · intro hkey
    obtain ⟨s1, s2, s3, h1, h2, h3, rfl⟩ := init_ok_decomp p l h
    refine List.mem_append_right _ ?_
    unfold edAssigns
    rw [hp]
    simp [initEfficientdet, hkey, List.mem_append]
  · intro hkey
    exact edOptConst_not_assigned p sec l "ANCHOR_BOX_RATIOS" hp h (by decide)
      (by decide) (by decide) (by simp [expectedEdKeys, mem_ite_singleton_iff, hkey])
  · intro hkey
    exact edOptConst_not_assigned p sec l "ED_TRAIN_BACKBONE" hp h (by decide)
      (by decide) (by decide) (by simp [expectedEdKeys, mem_ite_singleton_iff, hkey])
  · intro hkey
    exact edOptConst_not_assigned p sec l "ED_IMAGE_SIZES" hp h (by decide)
      (by decide) (by decide) (by simp [expectedEdKeys, mem_ite_singleton_iff, hkey])
  · intro hkey
    exact edOptConst_not_assigned p sec l "ED_INFERENCE_BACKBONE" hp h (by decide)
      (by decide) (by decide) (by simp [expectedEdKeys, mem_ite_singleton_iff, hkey])
  · intro hkey
    exact edOptConst_not_assigned p sec l "TRAIN_ANNOTATIONS_PATH" hp h (by decide)
      (by decide) (by decide) (by simp [expectedEdKeys, mem_ite_singleton_iff, hkey])
  · intro hkey
    exact edOptConst_not_assigned p sec l "VAL_ANNOTATIONS_PATH" hp h (by decide)
      (by decide) (by decide) (by simp [expectedEdKeys, mem_ite_singleton_iff, hkey])
  · intro hkey
    exact edOptConst_not_assigned p sec l "TEST_ANNOTATIONS_PATH" hp h (by decide)
      (by decide) (by decide) (by simp [expectedEdKeys, mem_ite_singleton_iff, hkey])
  · intro hkey
    exact edOptConst_not_assigned p sec l "SAVED_MODEL_PATH" hp h (by decide)
      (by decide) (by decide) (by simp [expectedEdKeys, mem_ite_singleton_iff, hkey])
  · intro hkey
    exact edOptConst_not_assigned p sec l "BEST_MODEL" hp h (by decide)
      (by decide) (by decide) (by simp [expectedEdKeys, mem_ite_singleton_iff, hkey])

/-- C4: for every non-empty image_list, predict_custom returns a table
with exactly one record per input image, in input order, whose fields are
the image path, the bounding boxes and the labels; when save_output_option
is true that same table ends up written as CSV at output_path, and when it
is false the filesystem is untouched. -/
theorem C4_predict_custom_table (Img Box Lbl : Type) (imread : String → Img)
    (cvtColor : Img → Img) (run : RunInput Img → RunOutput Box Lbl)
    (image_list : List String) (save_output_option : Bool) (output_path : String)
    (fs : PredFS Box Lbl) (hne : image_list ≠ []) :
    ∃ df : List (PredOutput Box Lbl),
      (predict_custom imread cvtColor run image_list save_output_option
        output_path fs).result = Except.ok df ∧
      df = image_list.map (predRecOf imread cvtColor run) ∧
      df.length = image_list.length ∧
      (∀ i : Nat, (df[i]?).map PredOutput.img_path = image_list[i]?) ∧
      (save_output_option = true →
        alookup (predict_custom imread cvtColor run image_list save_output_option
          output_path fs).fs output_path = some df) ∧
      (save_output_option = false →
        (predict_custom imread cvtColor run image_list save_output_option
          output_path fs).fs = fs) := by
  have hspec := predictLoop_spec imread cvtColor run save_output_option output_path
    image_list [] none fs []
  have hpc : predict_custom imread cvtColor run image_list save_output_option
      output_path fs =
      { result := Except.ok (image_list.map (predRecOf imread cvtColor run)),
        fs := (if save_output_option = true
          then awrite fs output_path (image_list.map (predRecOf imread cvtColor run))
          else fs),
        runCalls := image_list.map (runInputOf imread cvtColor) } := by
    unfold predict_custom
    rw [hspec]
    simp [hne]
  refine ⟨image_list.map (predRecOf imread cvtColor run), ?_, rfl, by simp, ?_, ?_, ?_⟩
  · rw [hpc]
  · intro i
    rcases hgi : image_list[i]? with _ | p
    · simp [List.getElem?_map, hgi]
    · simp [List.getElem?_map, hgi, predRecOf]
  · intro hsave
    rw [hpc]
    simp [hsave, alookup_awrite]
  · intro hsave
    rw [hpc]
    simp [hsave]

/-- C7: for every image path in image_list, predict_custom invokes the
model node run method exactly once, passing a dict mapping img to the
loaded image (one run call per path, in input order), and the
corresponding output record carries that run call output bboxes and
bbox_labels unmodified. -/
theorem C7_run_called_once_per_image (Img Box Lbl : Type) (imread : String → Img)
    (cvtColor : Img → Img) (run : RunInput Img → RunOutput Box Lbl)
    (image_list : List String) (save_output_option : Bool) (output_path : String)
    (fs : PredFS Box Lbl) :
    (predict_custom imread cvtColor run image_list save_output_option
      output_path fs).runCalls = image_list.map (runInputOf imread cvtColor) ∧
    (∀ df : List (PredOutput Box Lbl),
      (predict_custom imread cvtColor run image_list save_output_option
        output_path fs).result = Except.ok df →
      ∀ (i : Nat) (p : String), image_list[i]? = some p →
        (df[i]?).map PredOutput.bboxes =
          some (run (runInputOf imread cvtColor p)).bboxes ∧
        (df[i]?).map PredOutput.bbox_labels =
          some (run (runInputOf imread cvtColor p)).bbox_labels) := by
  have hspec := predictLoop_spec imread cvtColor run save_output_option output_path
    image_list [] none fs []
  by_cases h0 : image_list = []
  · subst h0
    constructor
    · rfl
    · intro df hdf
      exact absurd hdf (by simp [predict_custom, predictLoop])
  · have hpc : (predict_custom imread cvtColor run image_list save_output_option
        output_path fs).result =
          Except.ok (image_list.map (predRecOf imread cvtColor run)) ∧
        (predict_custom imread cvtColor run image_list save_output_option
          output_path fs).runCalls = image_list.map (runInputOf imread cvtColor) := by
      unfold predict_custom
      rw [hspec]
      simp [h0]
    refine ⟨hpc.2, ?_⟩
    intro df hdf
    rw [hpc.1] at hdf
    injection hdf with hdf
    subst hdf
    intro i p hip
    constructor
    · simp [List.getElem?_map, hip, predRecOf, runInputOf]
    · simp [List.getElem?_map, hip, predRecOf, runInputOf]

/-- Witness fixture: a concrete constants record. -/
def wConsts : Consts :=
  { INTERIM_DATA_PATH := "data/interim",
    COMBINED_ANNOTATIONS_FILENAME := "annotations_all.csv",
    RAW_DATA_PATH := "data/raw",
    PROCESSED_DATA_PATH := "data/processed",
    ED_TRAIN_BACKBONE := 0 }

/-- Witness fixture: a concrete process state with an empty filesystem. -/
def wState : RepoState := { consts := wConsts, fs := [], log := [] }

/-- Witness fixture: one well-formed DataFrame row. -/
def wRow : AnnotRow :=
  { file_name := "img1.jpg", category_name := "cell",
    bbox_x_min := 10, bbox_y_min := 20, bbox_x_max := 30, bbox_y_max := 40 }

/-- Witness fixture: a row with inverted bounding-box coordinates. -/
def wBadRow : AnnotRow :=
  { file_name := "img2.jpg", category_name := "cell",
    bbox_x_min := 50, bbox_y_min := 5, bbox_x_max := 10, bbox_y_max := 2 }

/-- Witness fixture: the state after converting the one-row DataFrame. -/
def wOutState : RepoState :=
  { consts := wConsts,
    fs := [("data/processed/train_efficientdet_b0.csv", PFile.edCsv
      [[CsvCell.path "data/raw/img1.jpg", CsvCell.int 10, CsvCell.int 20,
        CsvCell.int 30, CsvCell.int 40, CsvCell.str "cell"]])],
    log := [] }

/-- Witness fixture: the state after converting the bad-row DataFrame. -/
def wBadOutState : RepoState :=
  { consts := wConsts,
    fs := [("data/processed/val_efficientdet_b0.csv", PFile.edCsv
      [[CsvCell.path "data/raw/img2.jpg", CsvCell.int 50, CsvCell.int 5,
        CsvCell.int 10, CsvCell.int 2, CsvCell.str "cell"]])],
    log := [] }

/-- Witness for C1: one concrete DataFrame row is written as the expected
single CSV row. -/
theorem C1_witness :
    generate_annotations wState "train.csv" (some [wRow]) = Except.ok wOutState ∧
    (∃ rows : CsvRows,
      alookup wOutState.fs (edCsvPath wState.consts "train.csv") = some (PFile.edCsv rows) ∧
      rows.length = [wRow].length ∧
      (∀ (i : Nat) (a : AnnotRow), [wRow][i]? = some a → rows[i]? = some
        [ CsvCell.path (joinPath wState.consts.RAW_DATA_PATH a.file_name),
          CsvCell.int a.bbox_x_min, CsvCell.int a.bbox_y_min,
          CsvCell.int a.bbox_x_max, CsvCell.int a.bbox_y_max,
          CsvCell.str a.category_name ])) :=
  ⟨by decide, C1_generate_annotations_rows wState "train.csv" [wRow] wOutState (by decide)⟩

/-- Witness for C5: with an empty filesystem the combined annotations file
is missing and the call returns after logging only. -/
theorem C5_witness :
    alookup wState.fs (combinedAnnotPath wState.consts) = none ∧
    generate_annotations wState "train.csv" none = Except.ok
      { wState with log := wState.log ++
          [LogEntry.error ("Annotations file missing @ " ++ combinedAnnotPath wState.consts
            ++ "! No annotations to generate.")] } :=
  ⟨by decide, C5_generate_annotations_missing_file wState "train.csv" (by decide)⟩

/-- Witness for C6: a row with inverted coordinates is written unchanged. -/
theorem C6_witness :
    ([wBadRow][0]? = some wBadRow) ∧
    (wBadRow.bbox_x_min ≥ wBadRow.bbox_x_max ∨ wBadRow.bbox_y_min ≥ wBadRow.bbox_y_max) ∧
    generate_annotations wState "val.csv" (some [wBadRow]) = Except.ok wBadOutState ∧
    (∃ rows : CsvRows,
      alookup wBadOutState.fs (edCsvPath wState.consts "val.csv") = some (PFile.edCsv rows) ∧
      rows = [wBadRow].map (annotToCsvRow wState.consts.RAW_DATA_PATH) ∧
      rows[0]? = some (annotToCsvRow wState.consts.RAW_DATA_PATH wBadRow)) :=
  ⟨by decide, by decide, by decide,
    C6_no_bbox_ordering_check wState "val.csv" [wBadRow] wBadOutState 0 wBadRow
      (by decide) (by decide) (by decide)⟩

/-- Witness fixture: a concrete inference section dict. -/
def wInfSec : PyDict :=
  [ ("model_name", Val.str "effdet"), ("input_data_dir", Val.str "in"),
    ("save_output_image", Val.bool true), ("inference_output_path", Val.str "out"),
    ("inference_mode", Val.str "single") ]

/-- Witness fixture: params with only the inference section. -/
def wParams : Params := [("inference", wInfSec)]

/-- Witness fixture: the registry assignments produced by `wParams`. -/
def wStore : Store :=
  [ ("INFERENCE_MODEL_NAME", Val.str "effdet"), ("INFERENCE_INPUT_DIR", Val.str "in"),
    ("INFERENCE_SAVE_OUTPUT", Val.bool true), ("INFERENCE_OUTPUT_PATH", Val.str "out"),
    ("INFERENCE_MODE", Val.str "single") ]

/-- Witness for C2: a concrete init sequence replays through the pconst
guard without a ConstError, and a concrete generate_annotations call
leaves the constants unchanged. -/
theorem C2_witness :
    (pipelineConfigInit wParams = Except.ok wStore ∧
      pconstReplay wStore = Except.ok wStore) ∧
    (generate_annotations wState "train.csv" (some [wRow]) = Except.ok wOutState ∧
      wOutState.consts = wState.consts) :=
  ⟨⟨by decide, C2_registry_write_once.1 wParams wStore (by decide)⟩,
   ⟨by decide, C2_registry_write_once.2 wState "train.csv" (some [wRow]) wOutState
      (by decide)⟩⟩

/-- Witness fixture: `wParams` with an unrelated extra key added. -/
def wLocalParams : Params := [("not_a_section", []), ("inference", wInfSec)]

/-- Witness for C3 (amended): an unrelated params key does not change the
outcome, and the assigned constant names at a concrete input are exactly
the expected ones. -/
theorem C3_witness :
    (alookup wLocalParams "data_prep" = alookup wParams "data_prep" ∧
     alookup wLocalParams "train" = alookup wParams "train" ∧
     alookup wLocalParams "inference" = alookup wParams "inference" ∧
     alookup wLocalParams "efficientdet" = alookup wParams "efficientdet" ∧
     pipelineConfigInit wLocalParams = pipelineConfigInit wParams) ∧
    (pipelineConfigInit wParams = Except.ok wStore ∧
     wStore.map Prod.fst = expectedConstKeys wParams) :=
  ⟨⟨by decide, by decide, by decide, by decide,
    C3_amended_sections_only.1 wLocalParams wParams (by decide) (by decide)
      (by decide) (by decide)⟩,
   ⟨by decide, C3_amended_sections_only.2 wParams wStore (by decide)⟩⟩

/-- Witness fixture: an efficientdet section with only snapshot-path. -/
def wEdSec : PyDict := [("snapshot-path", Val.str "weights")]

/-- Witness fixture: params with only the efficientdet section. -/
def wEdParams : Params := [("efficientdet", wEdSec)]

/-- Witness fixture: the registry assignments produced by `wEdParams`. -/
def wEdStore : Store :=
  [("SAVED_MODEL_PATH", Val.str "weights"), ("ANCHOR_BOX_SCALES", Val.pynone)]

/-- Witness for C10: with anchor_box_scales absent the constant is set to
None, and an absent anchor_box_ratios leaves its constant unassigned. -/
theorem C10_witness :
    alookup wEdParams "efficientdet" = some wEdSec ∧
    pipelineConfigInit wEdParams = Except.ok wEdStore ∧
    (alookup wEdSec "anchor_box_scales" = none ∧
      ("ANCHOR_BOX_SCALES", Val.pynone) ∈ wEdStore) ∧
    (alookup wEdSec "anchor_box_ratios" = none ∧
      "ANCHOR_BOX_RATIOS" ∉ wEdStore.map Prod.fst) := by
  refine ⟨by decide, by decide, ⟨by decide, ?_⟩, ⟨by decide, ?_⟩⟩
  · exact (C10_anchor_box_scales_default wEdParams wEdSec wEdStore (by decide)
      (by decide)).1 (by decide)
  · exact (C10_anchor_box_scales_default wEdParams wEdSec wEdStore (by decide)
      (by decide)).2.1 (by decide)

/-- Witness fixture: toy image loading (identity on the path string). -/
def wImread : String → String := fun s => s

/-- Witness fixture: toy colour conversion. -/
def wCvt : String → String := fun s => "rgb-" ++ s

/-- Witness fixture: toy model node run function. -/
def wRun : RunInput String → RunOutput String String :=
  fun i => { bboxes := i.img ++ "-boxes", bbox_labels := i.img ++ "-labels" }

/-- Witness fixture: the prediction table for the one-image input. -/
def wDf : List (PredOutput String String) :=
  [{ bboxes := "rgb-a.jpg-boxes", bbox_labels := "rgb-a.jpg-labels",
     img_path := "a.jpg" }]

/-- Witness for C4: a concrete one-image run returns the one-record table
and writes it at the output path. -/
theorem C4_witness :
    (["a.jpg"] : List String) ≠ [] ∧
    (∃ df : List (PredOutput String String),
      (predict_custom wImread wCvt wRun ["a.jpg"] true "out.csv" []).result =
        Except.ok df ∧
      df = ["a.jpg"].map (predRecOf wImread wCvt wRun) ∧
      df.length = (["a.jpg"] : List String).length ∧
      (∀ i : Nat, (df[i]?).map PredOutput.img_path = (["a.jpg"] : List String)[i]?) ∧
      (true = true →
        alookup (predict_custom wImread wCvt wRun ["a.jpg"] true "out.csv" []).fs
          "out.csv" = some df) ∧
      (true = false →
        (predict_custom wImread wCvt wRun ["a.jpg"] true "out.csv" []).fs = [])) :=
  ⟨by decide, C4_predict_custom_table String String String wImread wCvt wRun
    ["a.jpg"] true "out.csv" [] (by decide)⟩

/-- Witness for C7: the model node is run once on the loaded image and the
record carries its output fields. -/
theorem C7_witness :
    ((predict_custom wImread wCvt wRun ["a.jpg"] false "out.csv" []).result =
      Except.ok wDf) ∧
    ((predict_custom wImread wCvt wRun ["a.jpg"] false "out.csv" []).runCalls =
      ["a.jpg"].map (runInputOf wImread wCvt)) ∧
    ((wDf[0]?).map PredOutput.bboxes =
      some (wRun (runInputOf wImread wCvt "a.jpg")).bboxes ∧
     (wDf[0]?).map PredOutput.bbox_labels =
      some (wRun (runInputOf wImread wCvt "a.jpg")).bbox_labels) :=
  ⟨by decide,
   (C7_run_called_once_per_image String String String wImread wCvt wRun
     ["a.jpg"] false "out.csv" []).1,
   (C7_run_called_once_per_image String String String wImread wCvt wRun
     ["a.jpg"] false "out.csv" []).2 wDf (by decide) 0 "a.jpg" (by decide)⟩

/-- Witness for C8: the effdet branch assigns the node yet raises, and
only life3_effdet completes. -/
theorem C8_witness :
    (set_model_node "effdet" [] none).model_node = some (ModelNode.effdetNode []) ∧
    (set_model_node "effdet" [] none).raised =
      some "Unsupported model node type specified!" ∧
    ((set_model_node "life3_effdet" [] none).raised = none ↔
      "life3_effdet" = "life3_effdet") :=
  ⟨(C8_set_model_node_effdet_raises.1 [] none).1,
   (C8_set_model_node_effdet_raises.1 [] none).2,
   C8_set_model_node_effdet_raises.2 "life3_effdet" [] none⟩

/-- Witness for C9: the empty-list call at concrete arguments raises
UnboundLocalError with no run calls and no file written. -/
theorem C9_witness :
    predict_custom wImread wCvt wRun [] true "out.csv" [] =
      { result := Except.error PyErr.unboundLocalError, fs := [], runCalls := [] } :=
  C9_predict_custom_empty_raises String String String wImread wCvt wRun true "out.csv" []
